import Mathlib

/- Verification of the prompt-to-structured-result extraction contract implemented by
`analyze_etl_script` in `src/Prompt.py`.

Python strings are modelled as lists of Unicode code points (`List Nat`), which matches
Python's `str` semantics (a `str` is a sequence of code points, including lone
surrogates, which Lean's `Char` cannot represent). -/

namespace ETLAudit

/-- A Python string: a finite sequence of Unicode code points. -/
abbrev Str := List Nat

/-- Code points of a Lean string literal, used to transliterate the literals of the
Python source. -/
def lit (s : String) : Str := s.toList.map Char.toNat

/-- Leftmost-occurrence split: `splitFirst pat s = some (pre, post)` exactly when `pat`
occurs in `s`, where `pre` is the part of `s` before the leftmost occurrence and `post`
the part after it (so `s = pre ++ pat ++ post`). This models the leftmost-match rule of
Python's `re.search`. -/
def splitFirst (pat : Str) : Str → Option (Str × Str)
  | [] => if pat = [] then some ([], []) else none
  | c :: rest =>
    if pat.isPrefixOf (c :: rest) then some ([], (c :: rest).drop pat.length)
    else (splitFirst pat rest).map (fun p => (c :: p.1, p.2))

/-- The fixed text that must precede the captured span: the opening fence, the marker,
a newline and the opening brace (the regex literal part followed by the first
character of the capture group). -/
def openMarker : Str := lit ("```structured-results\n\x7b")

/-- The fixed text that must close the captured span: the closing brace, a newline and
the closing fence. -/
def closeMarker : Str := lit ("\x7d\n```")

/-- Line 94 of `src/Prompt.py`: the regex search with the DOTALL flag, returning the
captured group 1 when a match exists.

With the DOTALL flag, the pattern is the literal text of `openMarker`, then a lazy
any-character span, then the literal text of `closeMarker`; the capture group is the
brace-delimited span. `re.search` picks the leftmost position where the whole pattern
matches and, at that position, the lazy span takes the fewest characters. Because a
match starting at a later position needs an occurrence of `closeMarker` that would
equally complete a match starting at an earlier occurrence of `openMarker`, the whole
pattern matches somewhere iff `closeMarker` occurs after the leftmost occurrence of
`openMarker`; the lazy span then ends at the first occurrence of `closeMarker` after
that. So the search is: first occurrence of `openMarker`, then first occurrence of
`closeMarker` in what follows. -/
def structured_match (audit_report : Str) : Option Str :=
  match splitFirst openMarker audit_report with
  | none => none
  | some (_, u) =>
    match splitFirst closeMarker u with
    | none => none
    | some (between, _) => some (123 :: between ++ [125])

/-! ### JSON values and the stdlib decoder (`json.loads`) -/

/-- A parsed JSON value. Numbers keep their source lexeme (`json.loads` converts the
lexeme with `int`/`float`; keeping the lexeme avoids committing to floating-point
semantics while preserving all the information of the parse). The constants `NaN`,
`Infinity` and `-Infinity`, which the stdlib decoder accepts by default, are kept as
number lexemes too. -/
inductive JsonValue : Type where
  | null : JsonValue
  | bool (b : Bool) : JsonValue
  | num (lexeme : Str) : JsonValue
  | str (codes : Str) : JsonValue
  | arr (items : List JsonValue) : JsonValue
  | obj (members : List (Str × JsonValue)) : JsonValue

/-- JSON insignificant whitespace, as in the stdlib decoder: space, tab, LF, CR. -/
def isJsonWs (c : Nat) : Bool := c = 32 || c = 9 || c = 10 || c = 13

/-- Drop leading JSON whitespace. -/
def skipWs : Str → Str
  | [] => []
  | c :: r => if isJsonWs c then skipWs r else c :: r

/-- ASCII decimal digit. -/
def isDigit (c : Nat) : Bool := 48 ≤ c && c ≤ 57

/-- Value of a hexadecimal digit. -/
def hexVal (c : Nat) : Option Nat :=
  if 48 ≤ c && c ≤ 57 then some (c - 48)
  else if 97 ≤ c && c ≤ 102 then some (c - 87)
  else if 65 ≤ c && c ≤ 70 then some (c - 55)
  else none

/-- Four hexadecimal digits, as in a `\uXXXX` escape. -/
def hex4 (s : Str) : Option (Nat × Str) :=
  match s with
  | a :: b :: c :: d :: r =>
    match hexVal a, hexVal b, hexVal c, hexVal d with
    | some x, some y, some z, some w => some (((x * 16 + y) * 16 + z) * 16 + w, r)
    | _, _, _, _ => none
  | _ => none

/-- The single-character string escapes of the JSON grammar (the decoder's BACKSLASH
table). -/
def simpleEscape (e : Nat) : Option Nat :=
  if e = 34 then some 34
  else if e = 92 then some 92
  else if e = 47 then some 47
  else if e = 98 then some 8
  else if e = 102 then some 12
  else if e = 110 then some 10
  else if e = 114 then some 13
  else if e = 116 then some 9
  else none

/-- Body of a JSON string after the opening quote, following the strict-mode stdlib
decoder: plain characters up to the closing quote, with control characters below 0x20
rejected; backslash escapes from the escape table; `\uXXXX` escapes with
surrogate-pair combination (a high surrogate followed by a `\uXXXX` low surrogate is
combined; a lone surrogate is kept as is). Returns the decoded content and the rest of
the input after the closing quote. The fuel argument bounds the recursion; every step
consumes at least one input character, so `length + 1` fuel is always enough. -/
def parseStringBody : Nat → Str → Option (Str × Str)
  | 0, _ => none
  | _ + 1, [] => none
  | n + 1, c :: r =>
    if c = 34 then some ([], r)
    else if c = 92 then
      match r with
      | 117 :: r2 =>
        match hex4 r2 with
        | none => none
        | some (u1, r3) =>
          if 0xD800 ≤ u1 ∧ u1 < 0xDC00 then
            match r3 with
            | 92 :: 117 :: r4 =>
              match hex4 r4 with
              | none => none
              | some (u2, r5) =>
                if 0xDC00 ≤ u2 ∧ u2 < 0xE000 then
                  (parseStringBody n r5).map
                    (fun p => ((0x10000 + (u1 - 0xD800) * 1024 + (u2 - 0xDC00)) :: p.1, p.2))
                else (parseStringBody n r3).map (fun p => (u1 :: p.1, p.2))
            | _ => (parseStringBody n r3).map (fun p => (u1 :: p.1, p.2))
          else (parseStringBody n r3).map (fun p => (u1 :: p.1, p.2))
      | e :: r2 =>
        match simpleEscape e with
        | some d => (parseStringBody n r2).map (fun p => (d :: p.1, p.2))
        | none => none
      | [] => none
    else if c < 32 then none
    else (parseStringBody n r).map (fun p => (c :: p.1, p.2))

/-- Optional fraction part of a number: `(\.\d+)?` matched at the current position;
returns the matched lexeme part (possibly empty) and the rest. -/
def parseFrac (s : Str) : Str × Str :=
  match s with
  | 46 :: r =>
    let ds := r.takeWhile isDigit
    if ds = [] then ([], s) else (46 :: ds, r.dropWhile isDigit)
  | _ => ([], s)

/-- Optional exponent part of a number: `([eE][-+]?\d+)?` matched at the current
position; returns the matched lexeme part (possibly empty) and the rest. -/
def parseExp (s : Str) : Str × Str :=
  match s with
  | c :: r =>
    if c = 101 ∨ c = 69 then
      match r with
      | d :: r2 =>
        if d = 43 ∨ d = 45 then
          let ds := r2.takeWhile isDigit
          if ds = [] then ([], s) else (c :: d :: ds, r2.dropWhile isDigit)
        else
          let ds := r.takeWhile isDigit
          if ds = [] then ([], s) else (c :: ds, r.dropWhile isDigit)
      | [] => ([], s)
    else ([], s)
  | [] => ([], s)

/-- Number token of the stdlib decoder: the regex
`(-?(?:0|[1-9]\d*))(\.\d+)?([eE][-+]?\d+)?` matched at the current position; returns
the lexeme and the rest of the input. -/
def parseNumber (s : Str) : Option (Str × Str) :=
  let signLen : Nat := match s with | 45 :: _ => 1 | _ => 0
  let s1 := s.drop signLen
  match s1 with
  | c :: r =>
    if c = 48 then
      let f := parseFrac r
      let e := parseExp f.2
      some (s.take signLen ++ [48] ++ f.1 ++ e.1, e.2)
    else if isDigit c then
      let ds := s1.takeWhile isDigit
      let f := parseFrac (s1.dropWhile isDigit)
      let e := parseExp f.2
      some (s.take signLen ++ ds ++ f.1 ++ e.1, e.2)
    else none
  | [] => none

mutual

/-- One JSON value, as decoded by the stdlib scanner: dispatch on the first
non-whitespace character to a string, object, array, the literal names, a number, or
the accepted non-finite constants. Returns the value and the rest of the input. The
fuel argument bounds the recursion depth; every recursive call consumes at least one
input character first, so `length + 1` fuel is always enough. -/
def parseValue : Nat → Str → Option (JsonValue × Str)
  | 0, _ => none
  | n + 1, s =>
    let s1 := skipWs s
    match s1 with
    | [] => none
    | c :: r =>
      if c = 34 then (parseStringBody (r.length + 1) r).map (fun p => (JsonValue.str p.1, p.2))
      else if c = 123 then (parseObjBody n r).map (fun p => (JsonValue.obj p.1, p.2))
      else if c = 91 then (parseArrBody n r).map (fun p => (JsonValue.arr p.1, p.2))
      else if (lit ("null")).isPrefixOf s1 then some (JsonValue.null, s1.drop 4)
      else if (lit ("true")).isPrefixOf s1 then some (JsonValue.bool true, s1.drop 4)
      else if (lit ("false")).isPrefixOf s1 then some (JsonValue.bool false, s1.drop 5)
      else
        match parseNumber s1 with
        | some (lx, r2) => some (JsonValue.num lx, r2)
        | none =>
          if (lit ("NaN")).isPrefixOf s1 then some (JsonValue.num (lit ("NaN")), s1.drop 3)
          else if (lit ("Infinity")).isPrefixOf s1 then
            some (JsonValue.num (lit ("Infinity")), s1.drop 8)
          else if (lit ("-Infinity")).isPrefixOf s1 then
            some (JsonValue.num (lit ("-Infinity")), s1.drop 9)
          else none

/-- Members of a JSON object after the opening brace: either a closing brace (empty
object) or a first `"key": value` pair followed by the remaining pairs. -/
def parseObjBody : Nat → Str → Option (List (Str × JsonValue) × Str)
  | 0, _ => none
  | n + 1, s =>
    match skipWs s with
    | 125 :: r => some ([], r)
    | 34 :: r =>
      match parseStringBody (r.length + 1) r with
      | none => none
      | some (key, r2) =>
        match skipWs r2 with
        | 58 :: r3 =>
          match parseValue n r3 with
          | none => none
          | some (v, r4) =>
            match skipWs r4 with
            | 44 :: r5 => (parseObjTail n r5).map (fun p => ((key, v) :: p.1, p.2))
            | 125 :: r5 => some ([(key, v)], r5)
            | _ => none
        | _ => none
    | _ => none

/-- Members of a JSON object after a comma: the next `"key": value` pair (a closing
brace directly after a comma is a decode error) followed by the remaining pairs. -/
def parseObjTail : Nat → Str → Option (List (Str × JsonValue) × Str)
  | 0, _ => none
  | n + 1, s =>
    match skipWs s with
    | 34 :: r =>
      match parseStringBody (r.length + 1) r with
      | none => none
      | some (key, r2) =>
        match skipWs r2 with
        | 58 :: r3 =>
          match parseValue n r3 with
          | none => none
          | some (v, r4) =>
            match skipWs r4 with
            | 44 :: r5 => (parseObjTail n r5).map (fun p => ((key, v) :: p.1, p.2))
            | 125 :: r5 => some ([(key, v)], r5)
            | _ => none
        | _ => none
    | _ => none

/-- Items of a JSON array after the opening bracket: either a closing bracket (empty
array) or a first value followed by the remaining items. -/
def parseArrBody : Nat → Str → Option (List JsonValue × Str)
  | 0, _ => none
  | n + 1, s =>
    match skipWs s with
    | 93 :: r => some ([], r)
    | s1 =>
      match parseValue n s1 with
      | none => none
      | some (v, r2) =>
        match skipWs r2 with
        | 93 :: r3 => some ([v], r3)
        | 44 :: r3 => (parseArrTail n r3).map (fun p => (v :: p.1, p.2))
        | _ => none

/-- Items of a JSON array after a comma: the next value (a closing bracket directly
after a comma is a decode error) followed by the remaining items. -/
def parseArrTail : Nat → Str → Option (List JsonValue × Str)
  | 0, _ => none
  | n + 1, s =>
    match parseValue n s with
    | none => none
    | some (v, r2) =>
      match skipWs r2 with
      | 93 :: r3 => some ([v], r3)
      | 44 :: r3 => (parseArrTail n r3).map (fun p => (v :: p.1, p.2))
      | _ => none

end

/-- `json.loads`: skip leading whitespace, decode one value, skip trailing whitespace
and require the whole input to be consumed (otherwise the decoder raises the
"Extra data" `JSONDecodeError`). Returns `none` on any decode error. -/
def jsonLoads (s : Str) : Option JsonValue :=
  match parseValue (s.length + 1) s with
  | none => none
  | some (v, rest) => if skipWs rest = [] then some v else none

/-! ### The prompt template (lines 8-77 of `src/Prompt.py`) -/

/-- The f-string text from its start up to the interpolated file name. -/
def fstringPart1 : Str :=
  lit ("\n    You are an ETL audit expert. Analyze the following ETL script for compliance.\n    \n    Ignore comments and documentation. Only check executable code.\n    \n    File Name: ")

/-- The f-string text between the interpolated file name and the interpolated script
content. -/
def fstringPart2 : Str := lit ("\n    \n    ")

/-- The f-string text after the interpolated script content: the four fixed
audit-category definitions and the output-schema preamble. -/
def fstringPart3 : Str :=
  lit ("\n\n    **Check for compliance on the following aspects:**\n    1. **Auditability** (Start/End timestamps, row counts, logs)\n    2. **Reconcilability** (ETL should have data reconcilability checks)\n    3. **Restartability** (Resumes from the point of failure?)\n    4. **Exception Handling** (Errors, alerts)\n\n    **For each category, return structured JSON with:**\n    - **Audit Result** → (Pass/Fail)\n    - **ETL Audit Type** → (Auditability, Reconcilability, Restartability, Exception Handling)\n    - **Audit Details/Evidence** → Provide a **detailed justification** with:\n    - **Detailed Analysis**: Observations from the script.\n\n    ")

/-- The fixed text prepended to the additional questions (line 33). -/
def additionalHeader : Str := lit ("\n\nAdditionally, answer the following questions:\n")

/-- One entry of the example JSON schema in the closing instruction (lines 45-51 and
their three repetitions), parameterized by the audit type name and the lowercase name
used in the example analysis text. -/
def auditEntry (auditType : String) (analysisName : String) : Str :=
  lit ("            \x7b\n                \"ETL Audit Type\": \"") ++ lit auditType
    ++ lit ("\",\n                \"Audit Result\": \"Pass/Fail\",\n                \"Audit Details/Evidence\": \x7b\n                    \"Detailed Analysis\": \"Explain in detail how ")
    ++ lit analysisName
    ++ lit (" is implemented or not and what it\x27s lacking.\"\n                \x7d\n            \x7d")

/-- The fixed closing instruction appended last (the plain triple-quoted string of
lines 36-77): the structured-output instruction, the example fenced block with the
schema, and the final "DO NOT" sentence. -/
def jsonFormatInstr : Str :=
  lit ("\n    \n    **Provide structured JSON output at the end in this format:**\n")
    ++ lit ("    \x27so i am using the below to extract output so be serious about generating this output\x27\n")
    ++ lit ("    structured_match = re.search(r\"```structured-results\n(\x7b.*?\x7d)\n```\", audit_report, re.DOTALL)\n")
    ++ lit ("    ```structured-results\n    \x7b\n        \"File Name Full Path\": \"\x7bfile_name\x7d\",\n        \"Audit Results\": [\n")
    ++ auditEntry ("Auditability") ("auditability") ++ lit (",\n")
    ++ auditEntry ("Reconcilability") ("reconcilability") ++ lit (",\n")
    ++ auditEntry ("Restartability") ("restartability") ++ lit (",\n")
    ++ auditEntry ("Exception Handling") ("exception handling") ++ lit ("\n")
    ++ lit ("        ]\n    \x7d\n    ```\n    **DO NOT** include any extra text outside of the JSON output.\n    ")

/-- Prompt construction of `analyze_etl_script` (lines 8-77): the f-string with the
file name and script content interpolated, then the additional-questions block, then
the fixed closing instruction. Python truthiness on lines 13 and 32: an absent *or
empty* `file_name` falls back to the literal `"Unknown"`, and an absent *or empty*
`additional_questions` leaves the additional-questions block out. -/
def build_prompt (script_content : Str) (file_name : Option Str)
    (additional_questions : Option Str) : Str :=
  let fileNameText : Str :=
    match file_name with
    | some nm => if nm = [] then lit ("Unknown") else nm
    | none => lit ("Unknown")
  let prompt := fstringPart1 ++ fileNameText ++ fstringPart2 ++ script_content ++ fstringPart3
  let prompt2 :=
    match additional_questions with
    | some q => if q = [] then prompt else prompt ++ additionalHeader ++ q
    | none => prompt
  prompt2 ++ jsonFormatInstr

/-! ### The completion consumer and the extractor (lines 82-110) -/

/-- The accumulation loop over completion chunks (lines 86-90): every chunk whose
content is not `None` has its content appended to the accumulator, in delivery order;
chunks whose content is `None` are skipped. -/
def consume (chunks : List (Option Str)) : Str :=
  chunks.foldl (fun acc c => match c with | some t => acc ++ t | none => acc) []

/-- Lines 93-106 of `analyze_etl_script` as a function of the accumulated report text:
search for the structured-results fenced block; if found, parse the captured span with
`json.loads` and return the parsed value, or the fixed parse-failure error mapping if
it does not parse; if no block is found, return the no-structured-JSON error mapping
carrying the full report text under `"raw_text"`. -/
def extract (audit_report : Str) : JsonValue :=
  match structured_match audit_report with
  | some structured_json_str =>
    match jsonLoads structured_json_str with
    | some structured_results => structured_results
    | none => JsonValue.obj [(lit ("error"), JsonValue.str (lit ("Failed to parse structured JSON.")))]
  | none =>
    JsonValue.obj [(lit ("error"), JsonValue.str (lit ("AI did not return structured JSON"))),
      (lit ("raw_text"), JsonValue.str audit_report)]

/-- Outcome of `call_genai_api(prompt)` together with the iteration of the returned
stream (lines 83-90): either the full list of chunks, each exposing an optional text
content, or an exception raised after some prefix of the chunks was consumed, carrying
the exception message `str(e)`. -/
inductive GenOutcome : Type where
  | chunks (cs : List (Option Str)) : GenOutcome
  | fail (consumed : List (Option Str)) (msg : Str) : GenOutcome

/-- The fixed instructional suffix appended to exception messages (line 110). -/
def exnSuffix : Str := lit ("\n\nPlease check the input and try again.")

/-- `analyze_etl_script(script_content, file_name, additional_questions)` (lines
1-110): build the prompt, call the generation API and iterate its stream (modelled by
the `response` outcome), and extract the structured result from the accumulated
report. Any exception raised while obtaining or iterating the stream is caught by the
`try`/`except` block and returned as an error mapping whose message is `str(e)`
followed by the fixed suffix. -/
def analyze_etl_script (script_content : Str) (file_name : Option Str)
    (additional_questions : Option Str) (response : GenOutcome) : JsonValue :=
  let _prompt := build_prompt script_content file_name additional_questions
  match response with
  | GenOutcome.chunks cs => extract (consume cs)
  | GenOutcome.fail _ msg =>
    JsonValue.obj [(lit ("error"), JsonValue.str (msg ++ exnSuffix))]

/-- Whether `pat` occurs as a contiguous substring of `s`. -/
def occursIn (pat s : Str) : Bool := (splitFirst pat s).isSome

/-- Whether a JSON value is an object (a Python dict). -/
def isObjValue : JsonValue → Bool
  | JsonValue.obj _ => true
  | _ => false

/-- Whether a JSON value is an object that has an `"error"` key. -/
def hasErrorKey : JsonValue → Bool
  | JsonValue.obj kvs => kvs.any (fun kv => kv.1 == lit ("error"))
  | _ => false

/-! ### Lemmas about the leftmost-occurrence search -/

theorem splitFirst_some_decomp (pat : Str) :
    ∀ (s b a : Str), splitFirst pat s = some (b, a) → s = b ++ pat ++ a := by
  intro s
  induction s with
  | nil =>
    intro b a h
    simp only [splitFirst] at h
    by_cases hp : pat = []
    · rw [if_pos hp] at h
      simp only [Option.some.injEq, Prod.mk.injEq] at h
      obtain ⟨hb, ha⟩ := h
      subst hp; subst hb; subst ha; rfl
    · rw [if_neg hp] at h
      exact absurd h (by simp)
  | cons c rest ih =>
    intro b a h
    simp only [splitFirst] at h
    by_cases hp : pat.isPrefixOf (c :: rest) = true
    · rw [if_pos hp] at h
      simp only [Option.some.injEq, Prod.mk.injEq] at h
      obtain ⟨hb, ha⟩ := h
      have hpre : pat <+: c :: rest := List.isPrefixOf_iff_prefix.mp hp
      subst hb; subst ha
      have htad := List.take_append_drop pat.length (c :: rest)
      conv_lhs => rw [← htad]
      rw [List.nil_append]
      congr 1
      exact (List.prefix_iff_eq_take.mp hpre).symm
    · rw [if_neg hp] at h
      cases hsf : splitFirst pat rest with
      | none => rw [hsf] at h; exact absurd h (by simp)
      | some q =>
        rw [hsf] at h
        simp only [Option.map_some', Option.some.injEq, Prod.mk.injEq] at h
        obtain ⟨hb, ha⟩ := h
        have := ih q.1 q.2 (by rw [hsf])
        subst hb; subst ha
        simp [this]

theorem splitFirst_self (pat r : Str) (h : pat ≠ []) : splitFirst pat (pat ++ r) = some ([], r) := by
  cases pat with
  | nil => exact absurd rfl h
  | cons d pd =>
    have hp : (d :: pd).isPrefixOf (d :: (pd ++ r)) = true := by
      rw [List.isPrefixOf_iff_prefix]
      exact List.prefix_append (d :: pd) r
    show splitFirst (d :: pd) (d :: (pd ++ r)) = some ([], r)
    simp only [splitFirst]
    rw [if_pos hp]
    congr 1
    exact congrArg (Prod.mk []) (List.drop_left (d :: pd) r)

theorem splitFirst_prepend (pat : Str) :
    ∀ (p s : Str), splitFirst pat (p ++ s.take (pat.length - 1)) = none →
      splitFirst pat (p ++ s) = (splitFirst pat s).map (fun q => (p ++ q.1, q.2)) := by
  intro p
  induction p with
  | nil =>
    intro s _
    simp only [List.nil_append]
    cases splitFirst pat s <;> simp
  | cons c p' ih =>
    intro s hnone
    simp only [List.cons_append] at hnone ⊢
    have hnp : ¬ pat.isPrefixOf (c :: (p' ++ s.take (pat.length - 1))) = true := by
      intro hp
      simp only [splitFirst, if_pos hp] at hnone
      simp at hnone
    have hnp2 : ¬ pat.isPrefixOf (c :: (p' ++ s)) = true := by
      intro hp
      apply hnp
      rw [List.isPrefixOf_iff_prefix] at hp ⊢
      rw [List.prefix_iff_eq_take] at hp ⊢
      have heq : (c :: (p' ++ s)).take pat.length
          = (c :: (p' ++ s.take (pat.length - 1))).take pat.length := by
        rw [show (c :: (p' ++ s)) = (c :: p') ++ s from rfl,
          show (c :: (p' ++ s.take (pat.length - 1))) = (c :: p') ++ s.take (pat.length - 1) from rfl]
        rw [List.take_append_eq_append_take, List.take_append_eq_append_take, List.take_take]
        congr 1
        have hmin : min (pat.length - (c :: p').length) (pat.length - 1)
            = pat.length - (c :: p').length := by
          simp only [List.length_cons]
          omega
        rw [hmin]
      rw [← heq]
      exact hp
    simp only [splitFirst, if_neg hnp] at hnone
    have hrec : splitFirst pat (p' ++ s.take (pat.length - 1)) = none := by
      cases hx : splitFirst pat (p' ++ s.take (pat.length - 1)) with
      | none => rfl
      | some q => rw [hx] at hnone; exact absurd hnone (by simp)
    simp only [splitFirst, if_neg hnp2]
    rw [ih s hrec]
    cases splitFirst pat s <;> simp

theorem splitFirst_block (pat : Str) (hpat : pat ≠ []) (p X : Str)
    (h : splitFirst pat (p ++ pat.take (pat.length - 1)) = none) :
    splitFirst pat (p ++ pat ++ X) = some (p, X) := by
  have hs : (pat ++ X).take (pat.length - 1) = pat.take (pat.length - 1) := by
    rw [List.take_append_eq_append_take]
    have : pat.length - 1 - pat.length = 0 := by omega
    rw [this]
    simp
  have := splitFirst_prepend pat p (pat ++ X) (by rw [hs]; exact h)
  rw [show p ++ pat ++ X = p ++ (pat ++ X) from by simp [List.append_assoc]]
  rw [this, splitFirst_self pat X hpat]
  simp

theorem occursIn_eq_false {pat s : Str} (h : occursIn pat s = false) :
    splitFirst pat s = none := by
  unfold occursIn at h
  cases hx : splitFirst pat s with
  | none => rfl
  | some q => rw [hx] at h; simp at h

/-! ### Lemmas about the extractor -/

theorem structured_match_decomp (rt span : Str) (h : structured_match rt = some span) :
    ∃ pre mid post, span = 123 :: mid ++ [125] ∧
      rt = pre ++ lit ("```structured-results\n") ++ span ++ lit ("\n```") ++ post := by
  unfold structured_match at h
  cases h1 : splitFirst openMarker rt with
  | none => rw [h1] at h; exact absurd h (by simp)
  | some pu =>
    obtain ⟨b1, u⟩ := pu
    rw [h1] at h
    have h' : (match splitFirst closeMarker u with
        | none => none
        | some (between, _) => some ((123 : Nat) :: between ++ [125])) = some span := h
    cases h2 : splitFirst closeMarker u with
    | none => rw [h2] at h'; exact absurd h' (by simp)
    | some ba =>
      obtain ⟨bt, a2⟩ := ba
      rw [h2] at h'
      have hsp : (123 : Nat) :: bt ++ [125] = span := by
        simpa using h'
      have hd1 := splitFirst_some_decomp openMarker rt b1 u h1
      have hd2 := splitFirst_some_decomp closeMarker u bt a2 h2
      refine ⟨b1, bt, a2, hsp.symm, ?_⟩
      have ho : openMarker = lit ("```structured-results\n") ++ [123] := by decide
      have hc : closeMarker = [125] ++ lit ("\n```") := by decide
      rw [hd1, hd2, ho, hc, ← hsp]
      simp [List.append_assoc]

theorem jsonLoads_lbrace_obj (t : Str) (v : JsonValue) (h : jsonLoads (123 :: t) = some v) :
    ∃ kvs, v = JsonValue.obj kvs := by
  have hred : jsonLoads (123 :: t)
      = match (parseObjBody (t.length + 1) t).map (fun p => (JsonValue.obj p.1, p.2)) with
        | none => none
        | some (w, rest) => if skipWs rest = [] then some w else none := rfl
  rw [hred] at h
  cases hob : parseObjBody (t.length + 1) t with
  | none => rw [hob] at h; exact absurd h (by simp)
  | some p =>
    rw [hob] at h
    simp only [Option.map_some'] at h
    by_cases hw : skipWs p.2 = []
    · rw [if_pos hw] at h
      exact ⟨p.1, (Option.some.injEq _ _ ▸ h).symm⟩
    · rw [if_neg hw] at h
      exact absurd h (by simp)

theorem extract_eq_noBlock (rt : Str) (hm : structured_match rt = none) :
    extract rt = JsonValue.obj
      [(lit ("error"), JsonValue.str (lit ("AI did not return structured JSON"))),
       (lit ("raw_text"), JsonValue.str rt)] := by
  unfold extract
  rw [hm]

theorem extract_eq_parsed (rt span : Str) (v : JsonValue)
    (hm : structured_match rt = some span) (hj : jsonLoads span = some v) :
    extract rt = v := by
  unfold extract
  rw [hm]
  have h' : (match jsonLoads span with
      | some structured_results => structured_results
      | none => JsonValue.obj
          [(lit ("error"), JsonValue.str (lit ("Failed to parse structured JSON.")))])
      = v := by rw [hj]
  exact h'

theorem extract_eq_badJson (rt span : Str)
    (hm : structured_match rt = some span) (hj : jsonLoads span = none) :
    extract rt = JsonValue.obj
      [(lit ("error"), JsonValue.str (lit ("Failed to parse structured JSON.")))] := by
  unfold extract
  rw [hm]
  have h' : (match jsonLoads span with
      | some structured_results => structured_results
      | none => JsonValue.obj
          [(lit ("error"), JsonValue.str (lit ("Failed to parse structured JSON.")))])
      = JsonValue.obj
        [(lit ("error"), JsonValue.str (lit ("Failed to parse structured JSON.")))] := by
    rw [hj]
  exact h'

theorem extract_obj (rt : Str) : ∃ kvs, extract rt = JsonValue.obj kvs := by
  cases hm : structured_match rt with
  | none => exact ⟨_, extract_eq_noBlock rt hm⟩
  | some span =>
    cases hj : jsonLoads span with
    | none => exact ⟨_, extract_eq_badJson rt span hm hj⟩
    | some v =>
      obtain ⟨pre, mid, post, hspan, _⟩ := structured_match_decomp rt span hm
      obtain ⟨kvs, hv⟩ :=
        jsonLoads_lbrace_obj (mid ++ [125]) v (by rw [hspan] at hj; exact hj)
      exact ⟨kvs, by rw [extract_eq_parsed rt span v hm hj, hv]⟩

theorem analyze_obj (script_content : Str) (file_name additional_questions : Option Str)
    (response : GenOutcome) :
    ∃ kvs, analyze_etl_script script_content file_name additional_questions response
      = JsonValue.obj kvs := by
  cases response with
  | chunks cs => exact extract_obj (consume cs)
  | fail consumed msg => exact ⟨_, rfl⟩

theorem analyze_eq_extract (script_content : Str) (file_name additional_questions : Option Str)
    (cs : List (Option Str)) :
    analyze_etl_script script_content file_name additional_questions (GenOutcome.chunks cs)
      = extract (consume cs) := rfl

theorem consume_foldl (cs : List (Option Str)) :
    ∀ acc : Str,
      cs.foldl (fun a c => match c with | some t => a ++ t | none => a) acc
        = acc ++ (cs.filterMap id).flatten := by
  induction cs with
  | nil => intro acc; simp
  | cons c cs ih =>
    intro acc
    cases c with
    | none => simp only [List.foldl_cons, ih, List.filterMap_cons]; rfl
    | some t => simp only [List.foldl_cons, ih, List.filterMap_cons]; simp [List.append_assoc]

/-! ### The claims -/

/-- Claim C1: for every report_text containing a fenced block of the form
three backticks, `structured-results`, newline, a brace-delimited span, newline,
closing fence, whose span parses as JSON, `extract` returns the parsed JSON value of
the leftmost such block's captured span, with no further schema validation; in
particular, for the report text `noise (fenced structured-results block with content
\x7b"a":1\x7d) trailing` the result is the mapping with `"a"` bound to `1`. -/
theorem claim_C1 (report_text span : Str) (v : JsonValue)
    (h1 : structured_match report_text = some span)
    (h2 : jsonLoads span = some v) :
    extract report_text = v :=
  extract_eq_parsed report_text span v h1 h2

theorem claim_C1_witness :
    structured_match (lit ("noise ```structured-results\n\x7b\"a\":1\x7d\n``` trailing"))
        = some (lit ("\x7b\"a\":1\x7d"))
    ∧ extract (lit ("noise ```structured-results\n\x7b\"a\":1\x7d\n``` trailing"))
        = JsonValue.obj [(lit ("a"), JsonValue.num (lit ("1")))] :=
  ⟨by decide,
    claim_C1 (lit ("noise ```structured-results\n\x7b\"a\":1\x7d\n``` trailing"))
      (lit ("\x7b\"a\":1\x7d")) (JsonValue.obj [(lit ("a"), JsonValue.num (lit ("1")))])
      (by decide) (by rfl)⟩

/-- Claim C2: for every report_text in which no fenced block matching the
structured-results pattern is found, extraction returns the mapping with key
`"error"` bound to `"AI did not return structured JSON"` and key `"raw_text"` bound
to the full accumulated report text. Stated over `analyze_etl_script` so that the
report text is visibly the full accumulation `consume cs` of the delivered chunks. -/
theorem claim_C2 (script_content : Str) (file_name additional_questions : Option Str)
    (cs : List (Option Str))
    (h : structured_match (consume cs) = none) :
    analyze_etl_script script_content file_name additional_questions (GenOutcome.chunks cs)
      = JsonValue.obj
        [(lit ("error"), JsonValue.str (lit ("AI did not return structured JSON"))),
         (lit ("raw_text"), JsonValue.str (consume cs))] :=
  extract_eq_noBlock (consume cs) h

theorem claim_C2_witness :
    analyze_etl_script (lit ("s")) none none (GenOutcome.chunks [some (lit ("hel")), some (lit ("lo"))])
      = JsonValue.obj
        [(lit ("error"), JsonValue.str (lit ("AI did not return structured JSON"))),
         (lit ("raw_text"), JsonValue.str (lit ("hello")))] :=
  claim_C2 (lit ("s")) none none [some (lit ("hel")), some (lit ("lo"))] (by decide)

/-- Claim C3: for every report_text in which a structured-results fenced block is
found but its captured span is not valid JSON, extraction returns exactly the mapping
with the single key `"error"` bound to `"Failed to parse structured JSON."` (no
`raw_text` key). -/
theorem claim_C3 (report_text span : Str)
    (h1 : structured_match report_text = some span)
    (h2 : jsonLoads span = none) :
    extract report_text = JsonValue.obj
      [(lit ("error"), JsonValue.str (lit ("Failed to parse structured JSON.")))] :=
  extract_eq_badJson report_text span h1 h2

theorem claim_C3_witness :
    extract (lit ("```structured-results\n\x7bbad json\x7d\n```"))
      = JsonValue.obj
        [(lit ("error"), JsonValue.str (lit ("Failed to parse structured JSON.")))] :=
  claim_C3 (lit ("```structured-results\n\x7bbad json\x7d\n```")) (lit ("\x7bbad json\x7d"))
    (by decide) (by rfl)

/-- Claim C4: for every report_text consisting of two fenced structured-results
blocks (with contents `\x7bc1\x7d` and `\x7bc2\x7d`) surrounded by arbitrary other
text, the search captures only the first (leftmost) block, and the captured span is
exactly that first block's own enclosed content `\x7bc1\x7d`, never spilling past its
terminator into the second block. The two side conditions state that the text before
the first block does not start an earlier occurrence of the opening marker and that
the first block's content does not contain the closing terminator, i.e. that the
first block really is the first and is terminated where written. -/
theorem claim_C4 (p c1 m c2 t : Str)
    (h1 : occursIn openMarker (p ++ openMarker.take (openMarker.length - 1)) = false)
    (h2 : occursIn closeMarker (c1 ++ closeMarker.take (closeMarker.length - 1)) = false) :
    structured_match
        (p ++ openMarker ++ c1 ++ closeMarker ++ m ++ openMarker ++ c2 ++ closeMarker ++ t)
      = some (123 :: c1 ++ [125]) := by
  have h1' := occursIn_eq_false h1
  have h2' := occursIn_eq_false h2
  have hopen := splitFirst_block openMarker (by decide) p
    (c1 ++ (closeMarker ++ (m ++ (openMarker ++ (c2 ++ (closeMarker ++ t)))))) h1'
  have hclose := splitFirst_block closeMarker (by decide) c1
    (m ++ (openMarker ++ (c2 ++ (closeMarker ++ t)))) h2'
  have hstr : p ++ openMarker ++ c1 ++ closeMarker ++ m ++ openMarker ++ c2 ++ closeMarker ++ t
      = p ++ openMarker
          ++ (c1 ++ (closeMarker ++ (m ++ (openMarker ++ (c2 ++ (closeMarker ++ t)))))) := by
    simp [List.append_assoc]
  unfold structured_match
  rw [hstr, hopen]
  have hcl2 : splitFirst closeMarker
      (c1 ++ (closeMarker ++ (m ++ (openMarker ++ (c2 ++ (closeMarker ++ t))))))
      = some (c1, m ++ (openMarker ++ (c2 ++ (closeMarker ++ t)))) := by
    have hstr2 : c1 ++ (closeMarker ++ (m ++ (openMarker ++ (c2 ++ (closeMarker ++ t)))))
        = c1 ++ closeMarker ++ (m ++ (openMarker ++ (c2 ++ (closeMarker ++ t)))) := by
      simp [List.append_assoc]
    rw [hstr2]
    exact hclose
  have h' : (match splitFirst closeMarker
        (c1 ++ (closeMarker ++ (m ++ (openMarker ++ (c2 ++ (closeMarker ++ t)))))) with
      | none => none
      | some (between, _) => some ((123 : Nat) :: between ++ [125]))
      = some ((123 : Nat) :: c1 ++ [125]) := by rw [hcl2]
  exact h'

theorem claim_C4_witness :
    occursIn openMarker (lit ("A!") ++ openMarker.take (openMarker.length - 1)) = false
    ∧ occursIn closeMarker (lit ("x") ++ closeMarker.take (closeMarker.length - 1)) = false
    ∧ structured_match
        (lit ("A!") ++ openMarker ++ lit ("x") ++ closeMarker ++ lit ("mid")
          ++ openMarker ++ lit ("y") ++ closeMarker ++ lit ("end"))
      = some (123 :: lit ("x") ++ [125]) :=
  ⟨by decide, by decide,
    claim_C4 (lit ("A!")) (lit ("x")) (lit ("mid")) (lit ("y")) (lit ("end"))
      (by decide) (by decide)⟩

/-- Claim C5: for every input, `analyze_etl_script` returns a well-formed mapping
(an object) and never lets a raw failure escape to the caller: any failure raised
while obtaining or iterating the fragment stream is caught and surfaced as a mapping
whose `"error"` value is the underlying failure's message followed by the fixed
suffix `"Please check the input and try again."` (preceded by a blank line). -/
theorem claim_C5 (script_content : Str) (file_name additional_questions : Option Str)
    (response : GenOutcome) :
    (∃ kvs, analyze_etl_script script_content file_name additional_questions response
        = JsonValue.obj kvs)
    ∧ (∀ consumed msg, response = GenOutcome.fail consumed msg →
        analyze_etl_script script_content file_name additional_questions response
          = JsonValue.obj [(lit ("error"), JsonValue.str (msg ++ exnSuffix))])
    ∧ exnSuffix = lit ("\n\n") ++ lit ("Please check the input and try again.") := by
  refine ⟨analyze_obj script_content file_name additional_questions response, ?_, by decide⟩
  intro consumed msg hr
  subst hr
  rfl

theorem claim_C5_witness :
    analyze_etl_script (lit ("s")) none none (GenOutcome.fail [] (lit ("boom")))
      = JsonValue.obj [(lit ("error"), JsonValue.str (lit ("boom") ++ exnSuffix))] :=
  (claim_C5 (lit ("s")) none none (GenOutcome.fail [] (lit ("boom")))).2.1 [] (lit ("boom")) rfl

/-- Claim C6: for every finite sequence of fragments, the completion consumer
produces exactly the concatenation, in delivery order, of the contents of the
fragments that have content; fragments with no content are skipped without error and
without affecting the result; in particular the fragments `A`, (empty), `BC`, `D`
yield `ABCD`, whether the empty fragment has no content at all or empty content. -/
theorem claim_C6 :
    (∀ chunks : List (Option Str), consume chunks = (chunks.filterMap id).flatten)
    ∧ consume [some (lit ("A")), none, some (lit ("BC")), some (lit ("D"))] = lit ("ABCD")
    ∧ consume [some (lit ("A")), some [], some (lit ("BC")), some (lit ("D"))] = lit ("ABCD") := by
  refine ⟨?_, by decide, by decide⟩
  intro chunks
  unfold consume
  simpa using consume_foldl chunks []

/-- Claim C7: `build_prompt` is a pure, deterministic function: for all script_text,
file_name and extra_questions values, two calls with identical inputs produce
byte-identical Prompt strings, with no dependence on hidden state (the embedding is a
function of exactly these three inputs). -/
theorem claim_C7 (s₁ s₂ : Str) (f₁ f₂ q₁ q₂ : Option Str)
    (hs : s₁ = s₂) (hf : f₁ = f₂) (hq : q₁ = q₂) :
    build_prompt s₁ f₁ q₁ = build_prompt s₂ f₂ q₂ := by
  subst hs; subst hf; subst hq; rfl

theorem claim_C7_witness :
    build_prompt (lit ("x")) none none = build_prompt (lit ("x")) none none :=
  claim_C7 (lit ("x")) (lit ("x")) none none none none rfl rfl rfl

/-- Claim C8 (counterexample): the claim says the extra-questions block is appended
verbatim exactly when extra_questions is present, but for the present-but-empty value
`some ""` the code's truthiness test skips the block: the built prompt is identical
to the prompt built with extra_questions absent, and differs from what the claim
predicts (the prompt with the block header appended before the closing instruction),
which is longer by the length of the block header (48 code points). -/
theorem claim_C8_counterexample :
    build_prompt (lit ("S")) none (some []) = build_prompt (lit ("S")) none none
    ∧ build_prompt (lit ("S")) none (some [])
        ≠ fstringPart1 ++ lit ("Unknown") ++ fstringPart2 ++ lit ("S") ++ fstringPart3
            ++ (additionalHeader ++ []) ++ jsonFormatInstr := by
  refine ⟨rfl, ?_⟩
  intro h
  have hb : build_prompt (lit ("S")) none (some [])
      = fstringPart1 ++ lit ("Unknown") ++ fstringPart2 ++ lit ("S") ++ fstringPart3
          ++ jsonFormatInstr := rfl
  rw [hb] at h
  have hlen := congrArg List.length h
  have h48 : additionalHeader.length = 48 := by decide
  simp only [List.length_append, h48, List.length_nil] at hlen
  omega

/-- Claim C8 (amended): for every input, the built prompt contains, in fixed order:
the role/instruction preamble, a file name line (showing the literal `"Unknown"` when
file_name is absent, or empty), the script text verbatim and untruncated, the four
fixed audit-category definitions, the extra-questions block appended verbatim exactly
when extra_questions is present *and non-empty* (Python truthiness), and the fixed
closing instruction. The equality exhibits the fixed order and verbatim inclusion;
the fixed parts are the template constants `fstringPart1` (role/instruction
preamble ending in the file name label), `fstringPart3` (the four audit-category
definitions) and `jsonFormatInstr` (the closing instruction), whose defining literals
transcribe the source template. -/
theorem claim_C8_amended :
    ∀ (script_content : Str) (file_name additional_questions : Option Str),
      build_prompt script_content file_name additional_questions =
        fstringPart1
          ++ (match file_name with
              | some nm => if nm = [] then lit ("Unknown") else nm
              | none => lit ("Unknown"))
          ++ fstringPart2 ++ script_content ++ fstringPart3
          ++ (match additional_questions with
              | some q => if q = [] then [] else additionalHeader ++ q
              | none => [])
          ++ jsonFormatInstr := by
  intro script_content file_name additional_questions
  unfold build_prompt
  cases file_name with
  | none =>
    cases additional_questions with
    | none => simp
    | some q =>
      by_cases hq : q = [] <;> simp [hq, List.append_assoc]
  | some nm =>
    cases additional_questions with
    | none => simp
    | some q =>
      by_cases hq : q = [] <;> simp [hq, List.append_assoc]

/-- Claim C9: a fenced block is recognized only when its enclosed content begins with
an opening brace and ends with a closing brace and is delimited exactly by the
literal text of the opening fence plus marker plus newline before the brace and a
newline plus closing fence after it; and for a structured-results fenced block whose
content is not such a brace-delimited span (content `hello`), extraction returns the
no-structured-block error mapping rather than an invalid-JSON error. -/
theorem claim_C9 :
    (∀ report_text span, structured_match report_text = some span →
      ∃ pre mid post, span = 123 :: mid ++ [125] ∧
        report_text = pre ++ lit ("```structured-results\n") ++ span ++ lit ("\n```") ++ post)
    ∧ extract (lit ("```structured-results\nhello\n```"))
        = JsonValue.obj
          [(lit ("error"), JsonValue.str (lit ("AI did not return structured JSON"))),
           (lit ("raw_text"), JsonValue.str (lit ("```structured-results\nhello\n```")))] := by
  refine ⟨?_, by rfl⟩
  intro report_text span h
  exact structured_match_decomp report_text span h

theorem claim_C9_witness :
    ∃ pre mid post, (lit ("\x7bx\x7d") : Str) = 123 :: mid ++ [125] ∧
      lit ("A```structured-results\n\x7bx\x7d\n```B")
        = pre ++ lit ("```structured-results\n") ++ lit ("\x7bx\x7d") ++ lit ("\n```") ++ post :=
  claim_C9.1 (lit ("A```structured-results\n\x7bx\x7d\n```B")) (lit ("\x7bx\x7d")) (by decide)

/-- Claim C10: every value returned by `analyze_etl_script` is a mapping (an object):
in the success case the result is always a JSON object, never a JSON array, string,
number or null, because only brace-delimited spans are ever parsed; and in every
failure case (stream failure, no structured block, invalid JSON) the result is a
mapping containing an `"error"` key. -/
theorem claim_C10 (script_content : Str) (file_name additional_questions : Option Str)
    (response : GenOutcome) :
    isObjValue (analyze_etl_script script_content file_name additional_questions response) = true
    ∧ (∀ consumed msg, response = GenOutcome.fail consumed msg →
        hasErrorKey (analyze_etl_script script_content file_name additional_questions response)
          = true)
    ∧ (∀ cs, response = GenOutcome.chunks cs → structured_match (consume cs) = none →
        hasErrorKey (analyze_etl_script script_content file_name additional_questions response)
          = true)
    ∧ (∀ cs span, response = GenOutcome.chunks cs → structured_match (consume cs) = some span →
        jsonLoads span = none →
        hasErrorKey (analyze_etl_script script_content file_name additional_questions response)
          = true) := by
  refine ⟨?_, ?_, ?_, ?_⟩
  · obtain ⟨kvs, hk⟩ := analyze_obj script_content file_name additional_questions response
    rw [hk]
    rfl
  · intro consumed msg hr
    subst hr
    rfl
  · intro cs hr hnone
    subst hr
    rw [analyze_eq_extract, extract_eq_noBlock (consume cs) hnone]
    rfl
  · intro cs span hr hsome hbad
    subst hr
    rw [analyze_eq_extract, extract_eq_badJson (consume cs) span hsome hbad]
    rfl

theorem claim_C10_witness :
    isObjValue (analyze_etl_script (lit ("s")) none none (GenOutcome.chunks [some (lit ("hi"))]))
      = true
    ∧ hasErrorKey
        (analyze_etl_script (lit ("s")) none none (GenOutcome.chunks [some (lit ("hi"))]))
      = true :=
  ⟨(claim_C10 (lit ("s")) none none (GenOutcome.chunks [some (lit ("hi"))])).1,
    (claim_C10 (lit ("s")) none none (GenOutcome.chunks [some (lit ("hi"))])).2.2.1
      [some (lit ("hi"))] rfl (by decide)⟩

end ETLAudit
